import Mathlib

/-!
Verification of the 1Password Raycast extension (Windows port).

This file gives a shallow embedding, in Lean 4, of the parts of the
TypeScript source that the specification talks about:

* `src/lib/utils.ts`   — `searchItems` (search/ranking),
* `src/lib/cache.ts`   — the read-through item/vault cache,
* the `op`-CLI invokers (`runOp` drafts) — tokenization, stderr
  classification, the auth retry, the 30 second timeout,
* the command builders — `createLoginItem`, `editLoginItem`,
  `generatePassword`, and the generate-password form handler.

JavaScript strings are modelled as Lean `String`; the JS string methods
used by the source (`includes`, `toLowerCase`, `startsWith`, `trim`,
`push`-style concatenation) are modelled over the underlying character
lists.  JS timestamps (`Date.now()`) are natural numbers of milliseconds;
the subtraction `Date.now() - parseInt(lastUpdate)` is integer valued, so
ages are compared in `Int`.  JSON round-tripping (`JSON.parse` of a
`JSON.stringify` the code itself produced) is modelled by storing the
snapshot value directly.
-/

set_option maxRecDepth 100000

namespace OnePass

/-- Model of JS `haystack.includes(needle)`: substring containment on the
character list. -/
def jsIncludes (hay needle : String) : Bool :=
  decide (needle.data <:+: hay.data)

/-- Model of JS `s.toLowerCase()` (per-character lowering). -/
def jsToLower (s : String) : String :=
  String.mk (s.data.map Char.toLower)

/-- Model of JS `s.startsWith(p)`. -/
def jsStartsWith (s p : String) : Bool :=
  decide (p.data <+: s.data)

/-- Model of JS `s.trim()`: drop whitespace from both ends. -/
def jsTrim (s : String) : String :=
  String.mk (((s.data.dropWhile Char.isWhitespace).reverse.dropWhile
    Char.isWhitespace).reverse)

/-! Data model, from `src/lib/types.ts`. -/

/-- A `section` reference of a field (`section` is a Lean keyword, hence
`fieldSection` below). -/
structure SectionRef where
  id : String
  label : String
deriving DecidableEq

/-- `OnePasswordField` from `types.ts`. -/
structure OnePasswordField where
  id : String
  label : String
  value : String
  type : String
  purpose : Option String
  fieldSection : Option SectionRef
deriving DecidableEq

/-- An entry of `OnePasswordItem.urls` from `types.ts`. -/
structure OnePasswordUrl where
  href : String
  label : Option String
deriving DecidableEq

/-- The vault reference inside an item. -/
structure VaultRef where
  id : String
  name : String
deriving DecidableEq

/-- `OnePasswordItem` from `types.ts`. -/
structure OnePasswordItem where
  id : String
  title : String
  vault : VaultRef
  category : String
  urls : Option (List OnePasswordUrl)
  fields : Option (List OnePasswordField)
  notesPlain : Option String
  createdAt : String
  updatedAt : String
  lastEditedBy : String
deriving DecidableEq

/-- `OnePasswordVault` from `types.ts`. -/
structure OnePasswordVault where
  id : String
  name : String
  type : String
  itemCount : Option Nat
  createdAt : Option String
  updatedAt : Option String
deriving DecidableEq

/-- `SearchResult` from `types.ts`; `score` and `matchedFields` are
optional there. -/
structure SearchResult where
  item : OnePasswordItem
  score : Option Nat
  matchedFields : Option (List String)
deriving DecidableEq

/-- The comparator key of `results.sort((a, b) => (b.score || 0) - (a.score || 0))`:
`r.score || 0`. -/
def resultScore (r : SearchResult) : Nat :=
  r.score.getD 0

/-- The order the comparator of `searchItems` sorts by: descending score. -/
def searchRel (a b : SearchResult) : Prop :=
  resultScore b ≤ resultScore a

instance : DecidableRel searchRel := fun a b =>
  inferInstanceAs (Decidable (resultScore b ≤ resultScore a))

instance : IsTotal SearchResult searchRel :=
  ⟨fun a b => Nat.le_total (resultScore b) (resultScore a)⟩

instance : IsTrans SearchResult searchRel :=
  ⟨fun _ _ _ h h' => Nat.le_trans h' h⟩

/-- Model of `results.sort((a, b) => (b.score || 0) - (a.score || 0))`.
ECMAScript `Array.prototype.sort` is a stable sort; a stable sort by the
comparator above is insertion sort by `searchRel` (an element is placed
before the first element of no greater score, so equal-score elements
keep their relative order). -/
def sortByScoreDesc (l : List SearchResult) : List SearchResult :=
  List.insertionSort searchRel l

/-- Model of `[...new Set(matchedFields)]`: deduplicate keeping the first
occurrence of each element. -/
def dedupFirst (l : List String) : List String :=
  go [] l
where
  /-- Walks the list keeping a `seen` accumulator. -/
  go : List String → List String → List String
  | _, [] => []
  | seen, x :: xs => if x ∈ seen then go seen xs else x :: go (x :: seen) xs

/-- The title phase of the per-item loop of `searchItems`
(`src/lib/utils.ts`): push "title", add 10, and add 5 more on a prefix
match. -/
def titlePart (lowerQuery : String) (item : OnePasswordItem) : Nat × List String :=
  if jsIncludes (jsToLower item.title) lowerQuery then
    if jsStartsWith (jsToLower item.title) lowerQuery then (15, ["title"])
    else (10, ["title"])
  else (0, [])

/-- One step of the URL loop of `searchItems`: a matching href pushes
"url" and adds 3. -/
def urlStep (lowerQuery : String) (acc : Nat × List String) (url : OnePasswordUrl) :
    Nat × List String :=
  if jsIncludes (jsToLower url.href) lowerQuery then (acc.1 + 3, acc.2 ++ ["url"])
  else acc

/-- The URL phase of the per-item loop of `searchItems` (guarded by
`if (item.urls)`; an absent list contributes nothing). -/
def urlPart (lowerQuery : String) (item : OnePasswordItem) : Nat × List String :=
  match item.urls with
  | none => (0, [])
  | some urls => urls.foldl (urlStep lowerQuery) (0, [])

/-- One step of the field loop of `searchItems`: a truthy matching value
pushes the label and adds 2; a matching label pushes the label and
adds 1. -/
def fieldStep (lowerQuery : String) (acc : Nat × List String) (f : OnePasswordField) :
    Nat × List String :=
  let accv : Nat × List String :=
    if f.value ≠ "" ∧ jsIncludes (jsToLower f.value) lowerQuery then
      (acc.1 + 2, acc.2 ++ [f.label])
    else acc
  if jsIncludes (jsToLower f.label) lowerQuery then (accv.1 + 1, accv.2 ++ [f.label])
  else accv

/-- The field phase of the per-item loop of `searchItems`. -/
def fieldPart (lowerQuery : String) (item : OnePasswordItem) : Nat × List String :=
  match item.fields with
  | none => (0, [])
  | some fields => fields.foldl (fieldStep lowerQuery) (0, [])

/-- The notes phase of the per-item loop of `searchItems`: truthy notes
containing the query push "notes" and add 1. -/
def notesPart (lowerQuery : String) (item : OnePasswordItem) : Nat × List String :=
  match item.notesPlain with
  | none => (0, [])
  | some n =>
    if n ≠ "" ∧ jsIncludes (jsToLower n) lowerQuery then (1, ["notes"])
    else (0, [])

/-- The body of the per-item loop of `searchItems` (`src/lib/utils.ts`):
accumulate `score` and `matchedFields` over title, urls, fields and notes.
The source mutates one accumulator; since it only ever adds to the score
and appends to the matched list, the four phases are modelled as four
partial sums/segments concatenated in the source's order. -/
def scoreItem (lowerQuery : String) (item : OnePasswordItem) : Nat × List String :=
  ((titlePart lowerQuery item).1 + (urlPart lowerQuery item).1 +
    (fieldPart lowerQuery item).1 + (notesPart lowerQuery item).1,
   (titlePart lowerQuery item).2 ++ (urlPart lowerQuery item).2 ++
    (fieldPart lowerQuery item).2 ++ (notesPart lowerQuery item).2)

/-- The `results.push(...)` step of `searchItems`: an item of positive
score becomes a `SearchResult` with its deduplicated matched fields, an
item of score 0 is dropped. -/
def buildResult (lowerQuery : String) (item : OnePasswordItem) : Option SearchResult :=
  let scored := scoreItem lowerQuery item
  if 0 < scored.1 then
    some { item := item, score := some scored.1,
           matchedFields := some (dedupFirst scored.2) }
  else none

/-- The `results` array of `searchItems` right before sorting: the loop
pushes, in input order, one result per positively scoring item. -/
def rankResults (lowerQuery : String) (items : List OnePasswordItem) : List SearchResult :=
  items.filterMap (buildResult lowerQuery)

/-- `searchItems` from `src/lib/utils.ts`.  An empty (falsy) trimmed query
returns the items unscored; otherwise each item is scored by `scoreItem`,
zero-score items are dropped, and the survivors are stable-sorted by
descending score. -/
def searchItems (items : List OnePasswordItem) (query : String) : List SearchResult :=
  if jsTrim query = "" then
    items.map (fun item => { item := item, score := none, matchedFields := none })
  else
    sortByScoreDesc (rankResults (jsToLower query) items)

/-! Spec-side scoring, written from the words of claim C1 (it is compared
against the source-derived `searchItems` in the theorems below). -/

/-- Spec side: case-insensitive substring match. -/
def ciContains (hay q : String) : Bool :=
  jsIncludes (jsToLower hay) (jsToLower q)

/-- Spec side: case-insensitive prefix match. -/
def ciStartsWith (hay q : String) : Bool :=
  jsStartsWith (jsToLower hay) (jsToLower q)

/-- Spec side item score, from C1's words: +10 if the title contains the
query, +5 more if the title additionally starts with the query, +3 for
each URL whose href contains the query, +2 for each field whose value
contains the query, +1 for each field whose label contains the query,
and +1 if the plaintext notes contain the query — all case-insensitively. -/
def specScore (item : OnePasswordItem) (query : String) : Nat :=
  (if ciContains item.title query then 10 else 0) +
  (if ciContains item.title query ∧ ciStartsWith item.title query then 5 else 0) +
  3 * ((item.urls.getD []).filter (fun u => ciContains u.href query)).length +
  2 * ((item.fields.getD []).filter (fun f => ciContains f.value query)).length +
  ((item.fields.getD []).filter (fun f => ciContains f.label query)).length +
  (if ciContains (item.notesPlain.getD "") query then 1 else 0)

/-! Helper lemmas about the string model. -/

theorem jsToLower_data (s : String) : (jsToLower s).data = s.data.map Char.toLower := rfl

theorem jsIncludes_empty_left (n : String) (hn : n.data ≠ []) :
    jsIncludes "" n = false := by
  simp only [jsIncludes, decide_eq_false_iff_not]
  intro h
  exact hn (List.infix_nil.mp h)

theorem jsTrim_eq_empty_iff (s : String) :
    jsTrim s = "" ↔ ∀ c ∈ s.data, c.isWhitespace = true := by
  unfold jsTrim
  constructor
  · intro h c hc
    have hdata : (((s.data.dropWhile Char.isWhitespace).reverse.dropWhile
        Char.isWhitespace).reverse) = [] := congrArg String.data h
    rw [List.reverse_eq_nil_iff, List.dropWhile_eq_nil_iff] at hdata
    rcases (List.takeWhile_append_dropWhile (p := Char.isWhitespace)
        (l := s.data)).symm ▸ hc with hmem
    rcases List.mem_append.mp hmem with h1 | h2
    · exact List.mem_takeWhile_imp h1
    · exact hdata c (List.mem_reverse.mpr h2)
  · intro h
    have : s.data.dropWhile Char.isWhitespace = [] :=
      List.dropWhile_eq_nil_iff.mpr (fun c hc => h c hc)
    simp [this]

theorem truthy_and_includes (v lq : String) (hlq : lq.data ≠ []) :
    ((v ≠ "" ∧ jsIncludes (jsToLower v) lq = true) ↔ jsIncludes (jsToLower v) lq = true) := by
  constructor
  · exact fun h => h.2
  · intro h
    refine ⟨?_, h⟩
    rintro rfl
    rw [show jsToLower "" = "" from rfl, jsIncludes_empty_left lq hlq] at h
    exact Bool.false_ne_true h

/-! The per-phase accumulation lemmas for `scoreItem`. -/

theorem titlePart_fst (lq : String) (item : OnePasswordItem) :
    (titlePart lq item).1
    = (if jsIncludes (jsToLower item.title) lq then 10 else 0) +
      (if jsIncludes (jsToLower item.title) lq ∧ jsStartsWith (jsToLower item.title) lq
        then 5 else 0) := by
  unfold titlePart
  by_cases hc : jsIncludes (jsToLower item.title) lq = true <;>
    by_cases hs : jsStartsWith (jsToLower item.title) lq = true <;>
    simp [hc, hs]

theorem urlFold_fst (lq : String) (urls : List OnePasswordUrl) (acc : Nat × List String) :
    (urls.foldl (urlStep lq) acc).1
    = acc.1 + 3 * (urls.filter (fun u => jsIncludes (jsToLower u.href) lq)).length := by
  induction urls generalizing acc with
  | nil => simp
  | cons u us ih =>
    simp only [List.foldl_cons, List.filter_cons]
    by_cases h : jsIncludes (jsToLower u.href) lq = true
    · rw [ih]
      simp only [urlStep, h, if_pos]
      simp [Nat.mul_succ]
      omega
    · rw [ih]
      simp [urlStep, h]

theorem urlPart_fst (lq : String) (item : OnePasswordItem) :
    (urlPart lq item).1
    = 3 * ((item.urls.getD []).filter (fun u => jsIncludes (jsToLower u.href) lq)).length := by
  unfold urlPart
  cases item.urls with
  | none => simp
  | some urls => simpa using urlFold_fst lq urls (0, [])

theorem fieldStep_fst (lq : String) (hlq : lq.data ≠ [])
    (acc : Nat × List String) (f : OnePasswordField) :
    (fieldStep lq acc f).1
    = acc.1 + (if jsIncludes (jsToLower f.value) lq then 2 else 0)
        + (if jsIncludes (jsToLower f.label) lq then 1 else 0) := by
  unfold fieldStep
  have hval : (f.value ≠ "" ∧ jsIncludes (jsToLower f.value) lq = true)
      ↔ jsIncludes (jsToLower f.value) lq = true := truthy_and_includes _ _ hlq
  rw [if_congr hval rfl rfl]
  by_cases hv : jsIncludes (jsToLower f.value) lq = true <;>
    by_cases hl : jsIncludes (jsToLower f.label) lq = true <;>
    simp [hv, hl]

theorem fieldFold_fst (lq : String) (hlq : lq.data ≠ [])
    (fields : List OnePasswordField) (acc : Nat × List String) :
    (fields.foldl (fieldStep lq) acc).1
    = acc.1 + 2 * (fields.filter (fun f => jsIncludes (jsToLower f.value) lq)).length
        + (fields.filter (fun f => jsIncludes (jsToLower f.label) lq)).length := by
  induction fields generalizing acc with
  | nil => simp
  | cons f fs ih =>
    simp only [List.foldl_cons, List.filter_cons]
    rw [ih, fieldStep_fst lq hlq]
    by_cases hv : jsIncludes (jsToLower f.value) lq = true <;>
      by_cases hl : jsIncludes (jsToLower f.label) lq = true <;>
      simp [hv, hl, Nat.mul_succ] <;> omega

theorem fieldPart_fst (lq : String) (hlq : lq.data ≠ []) (item : OnePasswordItem) :
    (fieldPart lq item).1
    = 2 * ((item.fields.getD []).filter (fun f => jsIncludes (jsToLower f.value) lq)).length
      + ((item.fields.getD []).filter (fun f => jsIncludes (jsToLower f.label) lq)).length := by
  unfold fieldPart
  cases item.fields with
  | none => simp
  | some fields => simpa using fieldFold_fst lq hlq fields (0, [])

theorem notesPart_fst (lq : String) (hlq : lq.data ≠ []) (item : OnePasswordItem) :
    (notesPart lq item).1
    = if jsIncludes (jsToLower (item.notesPlain.getD "")) lq then 1 else 0 := by
  unfold notesPart
  cases item.notesPlain with
  | none =>
    simp only [Option.getD_none]
    have : jsToLower "" = "" := rfl
    simp [this, jsIncludes_empty_left _ hlq]
  | some n =>
    simp only [Option.getD_some]
    rw [if_congr (truthy_and_includes n lq hlq) rfl rfl]
    by_cases h : jsIncludes (jsToLower n) lq = true <;> simp [h]

theorem scoreItem_fst_eq_specScore (item : OnePasswordItem) (q : String)
    (hq : (jsToLower q).data ≠ []) :
    (scoreItem (jsToLower q) item).1 = specScore item q := by
  show (titlePart (jsToLower q) item).1 + (urlPart (jsToLower q) item).1 +
      (fieldPart (jsToLower q) item).1 + (notesPart (jsToLower q) item).1 = _
  rw [titlePart_fst, urlPart_fst, fieldPart_fst _ hq, notesPart_fst _ hq]
  unfold specScore ciContains ciStartsWith
  ring

/-! Lemmas about the stable sort. -/

theorem filterScore_orderedInsert (s : Nat) (r : SearchResult) (l : List SearchResult) :
    (List.orderedInsert searchRel r l).filter (fun x => resultScore x == s)
    = if resultScore r == s then r :: l.filter (fun x => resultScore x == s)
      else l.filter (fun x => resultScore x == s) := by
  induction l with
  | nil =>
    by_cases hr : (resultScore r == s) = true <;> simp [List.orderedInsert, hr]
  | cons x xs ih =>
    simp only [List.orderedInsert]
    by_cases hord : searchRel r x
    · rw [if_pos hord]
      by_cases hr : (resultScore r == s) = true <;> simp [List.filter_cons, hr]
    · rw [if_neg hord]
      rw [List.filter_cons, ih]
      by_cases hr : (resultScore r == s) = true
      · have hx : (resultScore x == s) = false := by
          have h1 : resultScore r = s := by simpa using hr
          have h2 : resultScore r < resultScore x :=
            Nat.lt_of_not_le (fun h => hord h)
          simp only [beq_eq_false_iff_ne, ne_eq]
          omega
        simp [hr, hx, List.filter_cons]
      · by_cases hx : (resultScore x == s) = true <;> simp [hr, hx, List.filter_cons]

theorem filterScore_sortByScoreDesc (s : Nat) (l : List SearchResult) :
    (sortByScoreDesc l).filter (fun x => resultScore x == s)
    = l.filter (fun x => resultScore x == s) := by
  unfold sortByScoreDesc
  induction l with
  | nil => rfl
  | cons x xs ih =>
    simp only [List.insertionSort]
    rw [filterScore_orderedInsert, List.filter_cons]
    by_cases h : (resultScore x == s) = true <;> simp [h, ih]

theorem mem_rankResults {lq : String} {items : List OnePasswordItem} {r : SearchResult}
    (hr : r ∈ rankResults lq items) :
    r.score = some (scoreItem lq r.item).1 ∧ 0 < (scoreItem lq r.item).1 := by
  rcases List.mem_filterMap.mp hr with ⟨it, _, hbuild⟩
  unfold buildResult at hbuild
  by_cases h0 : 0 < (scoreItem lq it).1
  · rw [if_pos h0] at hbuild
    cases hbuild
    exact ⟨rfl, h0⟩
  · rw [if_neg h0] at hbuild
    cases hbuild

theorem buildResult_of_pos {lq : String} {it : OnePasswordItem}
    (h0 : 0 < (scoreItem lq it).1) :
    buildResult lq it
    = some { item := it, score := some (scoreItem lq it).1,
             matchedFields := some (dedupFirst (scoreItem lq it).2) } := by
  unfold buildResult
  rw [if_pos h0]

theorem buildResult_of_zero {lq : String} {it : OnePasswordItem}
    (h0 : ¬ 0 < (scoreItem lq it).1) :
    buildResult lq it = none := by
  unfold buildResult
  rw [if_neg h0]

theorem rankResults_filter_map_item (lq : String) (items : List OnePasswordItem)
    (s : Nat) (hs : 0 < s) :
    ((rankResults lq items).filter (fun r => resultScore r == s)).map (fun r => r.item)
    = items.filter (fun it => (scoreItem lq it).1 == s) := by
  induction items with
  | nil => rfl
  | cons it its ih =>
    unfold rankResults at ih ⊢
    rw [List.filterMap_cons, List.filter_cons]
    by_cases h0 : 0 < (scoreItem lq it).1
    · rw [buildResult_of_pos h0]
      have hscore : resultScore
          { item := it, score := some (scoreItem lq it).1,
            matchedFields := some (dedupFirst (scoreItem lq it).2) } = (scoreItem lq it).1 := rfl
      by_cases hsc : ((scoreItem lq it).1 == s) = true
      · simp only [List.filter_cons, hscore, hsc, if_pos, List.map_cons, ih]
      · simp only [List.filter_cons, hscore, hsc, Bool.false_eq_true, if_false, ih]
    · rw [buildResult_of_zero h0]
      have hsc : ((scoreItem lq it).1 == s) = false := by
        simp only [beq_eq_false_iff_ne, ne_eq]
        omega
      simp only [ih, hsc, Bool.false_eq_true, if_false]

/-- C1.  For a query with at least one non-whitespace character,
`searchItems` returns results sorted by descending score, assigns every
returned item exactly the claim's score (`specScore`), excludes items of
score 0, and for each positive score value the results carrying it are
exactly the input items of that `specScore`, in input order (stability). -/
theorem searchItems_ranks_by_specScore (items : List OnePasswordItem) (query : String)
    (hq : ∃ c ∈ query.data, ¬ c.isWhitespace = true) :
    List.Sorted searchRel (searchItems items query) ∧
    (∀ r ∈ searchItems items query,
      r.score = some (specScore r.item query) ∧ 0 < specScore r.item query) ∧
    (∀ s : Nat, 0 < s →
      ((searchItems items query).filter (fun r => resultScore r == s)).map
        (fun r => r.item)
      = items.filter (fun it => specScore it query == s)) := by
  obtain ⟨c, hc, hcw⟩ := hq
  have hdata : query.data ≠ [] := by
    intro h
    rw [h] at hc
    exact absurd hc (List.not_mem_nil c)
  have hlq : (jsToLower query).data ≠ [] := by
    rw [jsToLower_data]
    simp [hdata]
  have htrim : ¬ jsTrim query = "" := by
    intro h
    exact hcw ((jsTrim_eq_empty_iff query).mp h c hc)
  have hopen : searchItems items query
      = sortByScoreDesc (rankResults (jsToLower query) items) := by
    unfold searchItems
    rw [if_neg htrim]
  refine ⟨?_, ?_, ?_⟩
  · rw [hopen]
    exact List.sorted_insertionSort searchRel _
  · intro r hr
    rw [hopen] at hr
    have hr' : r ∈ rankResults (jsToLower query) items :=
      ((List.perm_insertionSort searchRel _).mem_iff).mp hr
    have := mem_rankResults hr'
    rw [scoreItem_fst_eq_specScore r.item query hlq] at this
    exact this
  · intro s hs
    rw [hopen, filterScore_sortByScoreDesc, rankResults_filter_map_item _ _ _ hs]
    refine List.filter_congr ?_
    intro it _
    rw [scoreItem_fst_eq_specScore it query hlq]

/-- C2.  An empty or whitespace-only query makes `searchItems` return
exactly the input items in their original order, with no score assigned
to any result. -/
theorem searchItems_whitespace_query (items : List OnePasswordItem) (query : String)
    (hq : ∀ c ∈ query.data, c.isWhitespace = true) :
    ((searchItems items query).map (fun r => r.item) = items) ∧
    (∀ r ∈ searchItems items query, r.score = none) := by
  have htrim : jsTrim query = "" := (jsTrim_eq_empty_iff query).mpr hq
  have hopen : searchItems items query
      = items.map (fun item => { item := item, score := none, matchedFields := none }) := by
    unfold searchItems
    rw [if_pos htrim]
  constructor
  · rw [hopen, List.map_map]
    exact List.map_id items
  · intro r hr
    rw [hopen] at hr
    rcases List.mem_map.mp hr with ⟨it, _, rfl⟩
    rfl

/-! Sample data used by the witness theorems (the spec's own end-to-end
scenario: query "git" against a GitHub item and a Bitbucket item). -/

/-- Sample item whose title matches "git" as a prefix. -/
def sampleGitHub : OnePasswordItem :=
  ⟨"id1", "GitHub", ⟨"v1", "Private"⟩, "Login", none, none, none, "", "", ""⟩

/-- Sample item matching "git" only through a field value. -/
def sampleBitbucket : OnePasswordItem :=
  ⟨"id2", "Bitbucket", ⟨"v1", "Private"⟩, "Login", none,
    some [⟨"f1", "note", "github backup", "text", none, none⟩], none, "", "", ""⟩

/-- Witness for C1 at the concrete query "git". -/
theorem searchItems_ranks_by_specScore_witness :
    (∃ c ∈ ("git" : String).data, ¬ c.isWhitespace = true) ∧
    (List.Sorted searchRel (searchItems [sampleGitHub, sampleBitbucket] "git") ∧
      (∀ r ∈ searchItems [sampleGitHub, sampleBitbucket] "git",
        r.score = some (specScore r.item "git") ∧ 0 < specScore r.item "git") ∧
      (∀ s : Nat, 0 < s →
        ((searchItems [sampleGitHub, sampleBitbucket] "git").filter
            (fun r => resultScore r == s)).map (fun r => r.item)
        = [sampleGitHub, sampleBitbucket].filter (fun it => specScore it "git" == s))) :=
  ⟨by decide, searchItems_ranks_by_specScore [sampleGitHub, sampleBitbucket] "git" (by decide)⟩

/-- Witness for C2 at the concrete whitespace query "  ". -/
theorem searchItems_whitespace_query_witness :
    (∀ c ∈ ("  " : String).data, c.isWhitespace = true) ∧
    (((searchItems [sampleGitHub, sampleBitbucket] "  ").map (fun r => r.item)
        = [sampleGitHub, sampleBitbucket]) ∧
      (∀ r ∈ searchItems [sampleGitHub, sampleBitbucket] "  ", r.score = none)) :=
  ⟨by decide, searchItems_whitespace_query [sampleGitHub, sampleBitbucket] "  " (by decide)⟩

/-! The read-through item/vault cache, from `src/lib/cache.ts`.

The Raycast `Cache` holds three independent string keys: `op_items`,
`op_vaults` and `op_last_update` (`CACHE_KEYS`).  The state below has one
slot per key.  `setCachedItems` stores `JSON.stringify(items)` under
`op_items` and `Date.now().toString()` under `op_last_update`;
`getCachedItems` re-parses both.  `JSON.parse ∘ JSON.stringify` and
`parseInt ∘ toString` are identities on the values the code itself
stores, so the slots hold the parsed values directly.  Every operation
takes the current `Date.now()` value in milliseconds as an argument. -/

structure CacheState where
  itemsSlot : Option (List OnePasswordItem)
  vaultsSlot : Option (List OnePasswordVault)
  lastUpdate : Option Nat
deriving DecidableEq

/-- `CACHE_TTL = 5 * 60 * 1000`, five minutes in milliseconds. -/
def CACHE_TTL : Int := 5 * 60 * 1000

/-- `setCachedItems` from `cache.ts`: overwrite the `op_items` slot and
the shared `op_last_update` slot. -/
def setCachedItems (s : CacheState) (items : List OnePasswordItem) (now : Nat) : CacheState :=
  { s with itemsSlot := some items, lastUpdate := some now }

/-- `setCachedVaults` from `cache.ts`: overwrite the `op_vaults` slot and
the shared `op_last_update` slot. -/
def setCachedVaults (s : CacheState) (vaults : List OnePasswordVault) (now : Nat) : CacheState :=
  { s with vaultsSlot := some vaults, lastUpdate := some now }

/-- `clearCache` from `cache.ts`: remove all three keys. -/
def clearCache (_ : CacheState) : CacheState :=
  { itemsSlot := none, vaultsSlot := none, lastUpdate := none }

/-- `getCachedItems` from `cache.ts`: absent if either key is missing or
the age `Date.now() - parseInt(lastUpdate)` exceeds `CACHE_TTL`. -/
def getCachedItems (s : CacheState) (now : Nat) : Option (List OnePasswordItem) :=
  match s.itemsSlot, s.lastUpdate with
  | some items, some t => if (now : Int) - (t : Int) > CACHE_TTL then none else some items
  | _, _ => none

/-- `getCachedVaults` from `cache.ts`, same age computation against the
same `op_last_update` key. -/
def getCachedVaults (s : CacheState) (now : Nat) : Option (List OnePasswordVault) :=
  match s.vaultsSlot, s.lastUpdate with
  | some vaults, some t => if (now : Int) - (t : Int) > CACHE_TTL then none else some vaults
  | _, _ => none

/-- C3.  Right after a `set` at capture time `t`, a `get` at time `now`
returns exactly the stored snapshot when `now - t ≤ 5` minutes, and
absent when `now - t > 5` minutes, with no invalidation needed; both for
items and for vaults. -/
theorem cache_get_respects_ttl (s : CacheState) (items : List OnePasswordItem)
    (vaults : List OnePasswordVault) (t now : Nat) :
    getCachedItems (setCachedItems s items t) now
      = (if (now : Int) - (t : Int) ≤ CACHE_TTL then some items else none) ∧
    getCachedVaults (setCachedVaults s vaults t) now
      = (if (now : Int) - (t : Int) ≤ CACHE_TTL then some vaults else none) := by
  constructor
  · show (if (now : Int) - (t : Int) > CACHE_TTL then none else some items) = _
    by_cases h : (now : Int) - (t : Int) ≤ CACHE_TTL
    · rw [if_neg (by omega), if_pos h]
    · rw [if_pos (by omega), if_neg h]
  · show (if (now : Int) - (t : Int) > CACHE_TTL then none else some vaults) = _
    by_cases h : (now : Int) - (t : Int) ≤ CACHE_TTL
    · rw [if_neg (by omega), if_pos h]
    · rw [if_pos (by omega), if_neg h]

/-- C10.  The items and vaults entries share the single `op_last_update`
timestamp: if the stored items snapshot is stale at time `t2` (its own
capture time `t1` is more than the TTL ago, so `getCachedItems` returns
absent), then a `setCachedVaults` at `t2` revives it — `getCachedItems`
returns the unchanged stale snapshot as fresh for another TTL window —
and symmetrically for vaults after `setCachedItems`. -/
theorem cache_shared_timestamp_revives_stale (s : CacheState)
    (items : List OnePasswordItem) (vaults : List OnePasswordVault)
    (t1 t2 now : Nat)
    (hitems : s.itemsSlot = some items)
    (hvaults : s.vaultsSlot = some vaults)
    (hstamp : s.lastUpdate = some t1)
    (hstale : (t2 : Int) - (t1 : Int) > CACHE_TTL)
    (hfresh : (now : Int) - (t2 : Int) ≤ CACHE_TTL) :
    getCachedItems s t2 = none ∧
    getCachedVaults s t2 = none ∧
    getCachedItems (setCachedVaults s vaults t2) now = some items ∧
    getCachedVaults (setCachedItems s items t2) now = some vaults := by
  refine ⟨?_, ?_, ?_, ?_⟩
  · unfold getCachedItems
    rw [hitems, hstamp]
    exact if_pos hstale
  · unfold getCachedVaults
    rw [hvaults, hstamp]
    exact if_pos hstale
  · show (match s.itemsSlot, some t2 with
      | some items, some t => if (now : Int) - (t : Int) > CACHE_TTL then none else some items
      | _, _ => none) = some items
    rw [hitems]
    exact if_neg (by omega)
  · show (match s.vaultsSlot, some t2 with
      | some vaults, some t => if (now : Int) - (t : Int) > CACHE_TTL then none else some vaults
      | _, _ => none) = some vaults
    rw [hvaults]
    exact if_neg (by omega)

/-- Witness for C10: a concrete stale-items state revived by a vaults
refresh. -/
theorem cache_shared_timestamp_revives_stale_witness :
    ((⟨some [sampleGitHub], some [], some 0⟩ : CacheState).itemsSlot = some [sampleGitHub] ∧
      (⟨some [sampleGitHub], some [], some 0⟩ : CacheState).vaultsSlot = some [] ∧
      (⟨some [sampleGitHub], some [], some 0⟩ : CacheState).lastUpdate = some 0 ∧
      ((400000 : Nat) : Int) - ((0 : Nat) : Int) > CACHE_TTL ∧
      ((500000 : Nat) : Int) - ((400000 : Nat) : Int) ≤ CACHE_TTL) ∧
    (getCachedItems ⟨some [sampleGitHub], some [], some 0⟩ 400000 = none ∧
      getCachedVaults ⟨some [sampleGitHub], some [], some 0⟩ 400000 = none ∧
      getCachedItems (setCachedVaults ⟨some [sampleGitHub], some [], some 0⟩ [] 400000) 500000
        = some [sampleGitHub] ∧
      getCachedVaults (setCachedItems ⟨some [sampleGitHub], some [], some 0⟩ [sampleGitHub] 400000)
          500000 = some []) :=
  ⟨⟨rfl, rfl, rfl, by decide, by decide⟩,
    cache_shared_timestamp_revives_stale ⟨some [sampleGitHub], some [], some 0⟩
      [sampleGitHub] [] 0 400000 500000 rfl rfl rfl (by decide) (by decide)⟩

/-! The argument tokenizer of `runOp` (identical loop in the two invoker
drafts, `src/unnamed/part_000` and `src/unnamed/part_001`): walk the
command string, toggle `inQuotes` on a double quote, end the current
argument on a space outside quotes, append any other character. -/

/-- The mutable loop state of the tokenizer: `args`, `currentArg`,
`inQuotes`. -/
structure TokState where
  args : List String
  currentArg : String
  inQuotes : Bool
deriving DecidableEq

/-- One iteration of the tokenizer loop of `runOp`. -/
def tokStep (st : TokState) (c : Char) : TokState :=
  if c = '"' then
    { st with inQuotes := !st.inQuotes }
  else if c = ' ' ∧ st.inQuotes = false then
    if st.currentArg ≠ "" then
      { args := st.args ++ [st.currentArg], currentArg := "", inQuotes := st.inQuotes }
    else st
  else
    { st with currentArg := st.currentArg.push c }

/-- The flush after the tokenizer loop of `runOp`: push a non-empty
trailing `currentArg`. -/
def tokFinish (st : TokState) : List String :=
  if st.currentArg ≠ "" then st.args ++ [st.currentArg] else st.args

/-- The tokenizer of `runOp`: run the loop over the command string, then
flush. -/
def tokenizeCommand (command : String) : List String :=
  tokFinish (command.data.foldl tokStep { args := [], currentArg := "", inQuotes := false })

/-- Spec-side splitter on space characters respecting double-quote spans,
written as a direct recursion (compared against the fold-based
`tokenizeCommand` below). -/
def specSplitArgs : List Char → Bool → List Char → List (List Char)
  | [], _, cur => if cur = [] then [] else [cur]
  | c :: cs, inQ, cur =>
    if c = '"' then specSplitArgs cs (!inQ) cur
    else if c = ' ' ∧ inQ = false then
      if cur = [] then specSplitArgs cs inQ []
      else cur :: specSplitArgs cs inQ []
    else specSplitArgs cs inQ (cur ++ [c])

/-- Claim-side splitter from C8's words: split on whitespace (any
whitespace character) respecting double-quote spans. -/
def specSplitArgsWS : List Char → Bool → List Char → List (List Char)
  | [], _, cur => if cur = [] then [] else [cur]
  | c :: cs, inQ, cur =>
    if c = '"' then specSplitArgsWS cs (!inQ) cur
    else if c.isWhitespace ∧ inQ = false then
      if cur = [] then specSplitArgsWS cs inQ []
      else cur :: specSplitArgsWS cs inQ []
    else specSplitArgsWS cs inQ (cur ++ [c])

/-- The whitespace-splitting tokenizer C8 describes. -/
def tokenizeSpecWS (command : String) : List String :=
  (specSplitArgsWS command.data false []).map String.mk

theorem tokStep_eq (args : List String) (cur : String) (inQ : Bool) (c : Char) :
    tokStep { args := args, currentArg := cur, inQuotes := inQ } c
    = if c = '"' then { args := args, currentArg := cur, inQuotes := !inQ }
      else if c = ' ' ∧ inQ = false then
        (if cur ≠ "" then { args := args ++ [cur], currentArg := "", inQuotes := inQ }
          else { args := args, currentArg := cur, inQuotes := inQ })
      else { args := args, currentArg := cur.push c, inQuotes := inQ } := rfl

theorem specSplit_quote (cs : List Char) (inQ : Bool) (cur : List Char) :
    specSplitArgs ('"' :: cs) inQ cur = specSplitArgs cs (!inQ) cur := by
  rw [specSplitArgs]
  rw [if_pos rfl]

theorem specSplit_space (cs : List Char) (cur : List Char) (h : ¬ cur = []) :
    specSplitArgs (' ' :: cs) false cur = cur :: specSplitArgs cs false [] := by
  rw [specSplitArgs]
  rw [if_neg (by decide), if_pos (by exact ⟨rfl, rfl⟩), if_neg h]

theorem specSplit_other {c : Char} {inQ : Bool} (cs cur : List Char)
    (h1 : ¬ c = '"') (h2 : ¬ (c = ' ' ∧ inQ = false)) :
    specSplitArgs (c :: cs) inQ cur = specSplitArgs cs inQ (cur ++ [c]) := by
  rw [specSplitArgs]
  rw [if_neg h1, if_neg h2]

theorem tokenize_fold_eq_specSplit (cs : List Char) (inQ : Bool) (args : List String)
    (cur : String) :
    tokFinish (cs.foldl tokStep { args := args, currentArg := cur, inQuotes := inQ })
    = args ++ (specSplitArgs cs inQ cur.data).map String.mk := by
  induction cs generalizing inQ args cur with
  | nil =>
    rw [List.foldl_nil, specSplitArgs, tokFinish]
    by_cases h : cur = ""
    · have hd : cur.data = [] := congrArg String.data h
      rw [if_neg (by simpa using h), if_pos hd]
      simp
    · have hd : ¬ cur.data = [] := by
        intro hc
        exact h (String.ext hc)
      rw [if_pos h, if_neg hd]
      simp only [List.map_cons, List.map_nil]
  | cons c cs ih =>
    rw [List.foldl_cons, tokStep_eq, specSplitArgs]
    by_cases hq : c = '"'
    · rw [if_pos hq, if_pos hq, ih]
    · rw [if_neg hq, if_neg hq]
      by_cases hsp : c = ' ' ∧ inQ = false
      · rw [if_pos hsp, if_pos hsp]
        by_cases hcur : cur = ""
        · have hd : cur.data = [] := congrArg String.data hcur
          rw [if_neg (by simpa using hcur), if_pos hd]
          rw [hcur]
          exact ih inQ args ""
        · have hd : ¬ cur.data = [] := fun hc => hcur (String.ext hc)
          rw [if_pos hcur, if_neg hd]
          have := ih inQ (args ++ [cur]) ""
          simp only [show ("" : String).data = [] from rfl] at this
          rw [this]
          have hmk : String.mk cur.data = cur := rfl
          simp [List.append_assoc, hmk]
      · rw [if_neg hsp, if_neg hsp]
        have := ih inQ args (cur.push c)
        rw [this, String.data_push]

theorem tokenizeCommand_eq_specSplit (command : String) :
    tokenizeCommand command = (specSplitArgs command.data false []).map String.mk := by
  have := tokenize_fold_eq_specSplit command.data false [] ""
  simpa [tokenizeCommand] using this

theorem specSplitArgs_quoted_span (v : List Char) (hv : ∀ c ∈ v, ¬ c = '"')
    (cs : List Char) (cur : List Char) :
    specSplitArgs (v ++ cs) true cur = specSplitArgs cs true (cur ++ v) := by
  induction v generalizing cur with
  | nil => simp
  | cons c vs ih =>
    have hc : ¬ c = '"' := hv c (List.mem_cons_self c vs)
    rw [List.cons_append, specSplit_other _ _ hc (by simp)]
    rw [ih (fun x hx => hv x (List.mem_cons_of_mem c hx)) (cur ++ [c])]
    rw [List.append_assoc]
    rfl

/-- C8 (counterexample).  The tokenizer does not split on general
whitespace: a tab separates two words for the claim-side
whitespace-splitting tokenizer, but the source splits only on the space
character and keeps "a\tb" as a single token. -/
theorem tokenize_not_whitespace_split :
    tokenizeCommand "a\tb" = ["a\tb"] ∧
    tokenizeSpecWS "a\tb" = ["a", "b"] ∧
    tokenizeCommand "a\tb" ≠ tokenizeSpecWS "a\tb" := by
  refine ⟨by decide, by decide, by decide⟩

/-- C8 (amended).  The tokenizer splits the command on space characters
(not on all whitespace) into an argument vector, treating
double-quote-delimited spans as single tokens; consequently a non-empty
quoted argument containing spaces (and no double quote) is passed as one
token, as in `--title "v"`. -/
theorem tokenizeCommand_space_split (command : String) (v : String)
    (hv : ∀ c ∈ v.data, ¬ c = '"') (hne : v.data ≠ []) :
    tokenizeCommand command = (specSplitArgs command.data false []).map String.mk ∧
    tokenizeCommand ("--title \"" ++ v ++ "\"") = ["--title", v] := by
  refine ⟨tokenizeCommand_eq_specSplit command, ?_⟩
  rw [tokenizeCommand_eq_specSplit]
  have hdata : ("--title \"" ++ v ++ "\"").data
      = '-' :: '-' :: 't' :: 'i' :: 't' :: 'l' :: 'e' :: ' ' :: '"' :: (v.data ++ ['"']) := by
    rw [String.data_append, String.data_append]
    rfl
  rw [hdata]
  rw [specSplit_other _ _ (by decide) (by decide), specSplit_other _ _ (by decide) (by decide),
    specSplit_other _ _ (by decide) (by decide), specSplit_other _ _ (by decide) (by decide),
    specSplit_other _ _ (by decide) (by decide), specSplit_other _ _ (by decide) (by decide),
    specSplit_other _ _ (by decide) (by decide)]
  rw [specSplit_space _ _ (by decide)]
  rw [specSplit_quote]
  rw [show (!false) = true from rfl]
  rw [specSplitArgs_quoted_span v.data hv]
  rw [specSplit_quote]
  rw [show (!true) = false from rfl]
  rw [specSplitArgs]
  rw [if_neg (by simpa using hne)]
  simp only [List.map_cons, List.map_nil]
  have h1 : String.mk ((((((([] ++ ['-']) ++ ['-']) ++ ['t']) ++ ['i']) ++ ['t']) ++ ['l']) ++ ['e'])
      = "--title" := by decide
  have h2 : String.mk ([] ++ v.data) = v := rfl
  rw [h1, h2]

/-- Witness for C8's amended theorem at a concrete command and quoted
value. -/
theorem tokenizeCommand_space_split_witness :
    (∀ c ∈ ("my pass" : String).data, ¬ c = '"') ∧ ("my pass" : String).data ≠ [] ∧
    (tokenizeCommand "item get abc"
        = (specSplitArgs ("item get abc" : String).data false []).map String.mk ∧
      tokenizeCommand ("--title \"" ++ "my pass" ++ "\"") = ["--title", "my pass"]) :=
  ⟨by decide, by decide,
    tokenizeCommand_space_split "item get abc" "my pass" (by decide) (by decide)⟩

/-! The process invoker.  `src/unnamed/part_001` has the draft whose
close handler classifies failures (app-unreachable, auth, generic);
`src/unnamed/part_000` has the draft with the session cache and the
single auth retry.  Apostrophes inside the UI message strings of the
source are elided here. -/

/-- Failure taxonomy of a finished invocation. -/
inductive OpFailure where
  | appUnreachable (message : String)
  | authRequired (message : String)
  | commandFailed (message : String)
  | timeout (message : String)
deriving DecidableEq

/-- Outcome of the close handler: resolution with trimmed stdout plus
whether stderr was logged via `console.warn`, or a classified rejection. -/
inductive CloseOutcome where
  | ok (stdout : String) (logged : Bool)
  | fail (f : OpFailure)
deriving DecidableEq

/-- The app-unreachable rejection message of `part_001`. -/
def appUnreachableMessage : String :=
  "Cannot connect to 1Password desktop app. Please ensure:\n1. 1Password app is running and unlocked\n2. CLI integration is enabled: Settings → Developer → Integrate with 1Password CLI\n3. Try restarting the 1Password app"

/-- The sign-in rejection message shared by both invoker drafts. -/
def signInMessage : String :=
  "Please sign in to 1Password CLI. Make sure:\n1. 1Password desktop app is open and unlocked\n2. CLI integration is enabled (Settings → Developer)\n3. Try running op signin in PowerShell"

/-- The app-unreachable stderr test of `part_001` (on lowered stderr). -/
def appUnreachableStderr (stderr : String) : Bool :=
  jsIncludes (jsToLower stderr) "cannot connect to 1password app" ||
  jsIncludes (jsToLower stderr) "make sure it is running"

/-- The auth stderr test of `part_001` (five disjuncts on lowered
stderr). -/
def authStderr (stderr : String) : Bool :=
  jsIncludes (jsToLower stderr) "not signed in" ||
  jsIncludes (jsToLower stderr) "authentication" ||
  jsIncludes (jsToLower stderr) "you are not signed in" ||
  jsIncludes (jsToLower stderr) "sign in required" ||
  jsIncludes (jsToLower stderr) "account is not signed in"

/-- The auth stderr test of `part_000` (four disjuncts on lowered
stderr). -/
def authStderrRetry (stderr : String) : Bool :=
  jsIncludes (jsToLower stderr) "not signed in" ||
  jsIncludes (jsToLower stderr) "authentication" ||
  jsIncludes (jsToLower stderr) "you are not signed in" ||
  jsIncludes (jsToLower stderr) "sign in required"

/-- The `close` handler of `runOp` in `src/unnamed/part_001`: on
non-zero exit classify by stderr (app-unreachable first, then auth,
then generic with the raw stderr, else the generic exit-code message);
on zero exit resolve trimmed stdout, logging stderr only when it is
non-empty, contains no "warning", and trims non-empty. -/
def classifyClose (code : Int) (stdout stderr : String) : CloseOutcome :=
  if code ≠ 0 then
    if appUnreachableStderr stderr then .fail (.appUnreachable appUnreachableMessage)
    else if authStderr stderr then .fail (.authRequired signInMessage)
    else if stderr ≠ "" ∧ ¬ jsIncludes stderr "warning" = true then
      .fail (.commandFailed stderr)
    else
      .fail (.commandFailed
        ("Command failed with exit code " ++ toString code ++ ". " ++ stderr))
  else
    .ok (jsTrim stdout)
      (stderr ≠ "" ∧ ¬ jsIncludes stderr "warning" = true ∧ jsTrim stderr ≠ "")

/-- Discriminator: did the close handler classify AUTH_REQUIRED. -/
def isAuthRequired : CloseOutcome → Bool
  | .fail (.authRequired _) => true
  | _ => false

/-- Discriminator: did the close handler log stderr. -/
def loggedFlag : CloseOutcome → Bool
  | .ok _ logged => logged
  | _ => false

/-- Claim-side auth predicate, from C5's words (three substrings). -/
def claimAuthStderr (stderr : String) : Bool :=
  jsIncludes (jsToLower stderr) "not signed in" ||
  jsIncludes (jsToLower stderr) "authentication" ||
  jsIncludes (jsToLower stderr) "sign in required"

/-- Claim-side app-unreachable predicate, from C5's words. -/
def claimAppStderr (stderr : String) : Bool :=
  jsIncludes (jsToLower stderr) "cannot connect to 1password app" ||
  jsIncludes (jsToLower stderr) "make sure it is running"

theorem jsIncludes_of_infix (l a b : String) (hab : a.data <:+: b.data)
    (h : jsIncludes l b = true) : jsIncludes l a = true := by
  unfold jsIncludes at *
  exact decide_eq_true (List.IsInfix.trans hab (of_decide_eq_true h))

theorem authStderr_eq_claimAuth (stderr : String) :
    authStderr stderr = claimAuthStderr stderr := by
  have himp1 : jsIncludes (jsToLower stderr) "you are not signed in" = true →
      jsIncludes (jsToLower stderr) "not signed in" = true := fun h =>
    jsIncludes_of_infix _ _ _ (by decide) h
  have himp2 : jsIncludes (jsToLower stderr) "account is not signed in" = true →
      jsIncludes (jsToLower stderr) "not signed in" = true := fun h =>
    jsIncludes_of_infix _ _ _ (by decide) h
  unfold authStderr claimAuthStderr
  cases h1 : jsIncludes (jsToLower stderr) "not signed in" <;>
    cases h2 : jsIncludes (jsToLower stderr) "authentication" <;>
    cases h3 : jsIncludes (jsToLower stderr) "sign in required" <;>
    cases h4 : jsIncludes (jsToLower stderr) "you are not signed in" <;>
    cases h5 : jsIncludes (jsToLower stderr) "account is not signed in" <;>
    simp_all

/-- C5 (counterexample).  First, a non-zero exit whose stderr contains
"authentication" is classified APP_UNREACHABLE, not AUTH_REQUIRED, when
it also matches the app-unreachable substrings, because the code checks
those first.  Second, on a zero exit a warnings-only stderr is not
logged (the code logs only non-warning stderr); the invocation does
still succeed with trimmed stdout. -/
theorem classifyClose_claim_counterexample :
    (jsIncludes (jsToLower "authentication failed: make sure it is running")
        "authentication" = true ∧
      classifyClose 1 "" "authentication failed: make sure it is running"
        = .fail (.appUnreachable appUnreachableMessage) ∧
      isAuthRequired
        (classifyClose 1 "" "authentication failed: make sure it is running") = false) ∧
    (jsIncludes "warning: cache is stale" "warning" = true ∧
      classifyClose 0 " out " "warning: cache is stale" = .ok "out" false ∧
      loggedFlag (classifyClose 0 " out " "warning: cache is stale") = false) := by
  refine ⟨⟨by decide, by decide, by decide⟩, ⟨by decide, by decide, by decide⟩⟩

/-- C5 (amended).  Non-zero exits are classified by case-insensitive
substring inspection of stderr with the app-unreachable test taking
precedence: "cannot connect to 1password app" / "make sure it is
running" yields APP_UNREACHABLE; otherwise "not signed in" /
"authentication" / "sign in required" yields AUTH_REQUIRED; any other
non-zero exit yields COMMAND_FAILED with the raw stderr preserved
inside the error message.  A zero exit resolves with trimmed stdout;
stderr is logged only when it is non-empty, does not contain "warning",
and has non-whitespace content (so warnings-only stderr is not logged). -/
theorem classifyClose_amended (code : Int) (stdout stderr : String) :
    (code ≠ 0 → claimAppStderr stderr = true →
      classifyClose code stdout stderr = .fail (.appUnreachable appUnreachableMessage)) ∧
    (code ≠ 0 → claimAppStderr stderr = false → claimAuthStderr stderr = true →
      classifyClose code stdout stderr = .fail (.authRequired signInMessage)) ∧
    (code ≠ 0 → claimAppStderr stderr = false → claimAuthStderr stderr = false →
      ∃ m, classifyClose code stdout stderr = .fail (.commandFailed m) ∧
        jsIncludes m stderr = true) ∧
    (code = 0 →
      classifyClose code stdout stderr
        = .ok (jsTrim stdout)
            (stderr ≠ "" ∧ ¬ jsIncludes stderr "warning" = true ∧ jsTrim stderr ≠ "")) := by
  have happ : claimAppStderr stderr = appUnreachableStderr stderr := rfl
  refine ⟨?_, ?_, ?_, ?_⟩
  · intro hc happ'
    unfold classifyClose
    rw [if_pos hc, if_pos (happ ▸ happ')]
  · intro hc happ' hauth
    unfold classifyClose
    rw [if_pos hc, if_neg (by rw [← happ, happ']; exact Bool.false_ne_true),
      if_pos (by rw [authStderr_eq_claimAuth]; exact hauth)]
  · intro hc happ' hauth
    unfold classifyClose
    rw [if_pos hc, if_neg (by rw [← happ, happ']; exact Bool.false_ne_true),
      if_neg (by rw [authStderr_eq_claimAuth, hauth]; exact Bool.false_ne_true)]
    by_cases hgen : stderr ≠ "" ∧ ¬ jsIncludes stderr "warning" = true
    · rw [if_pos hgen]
      refine ⟨stderr, rfl, ?_⟩
      exact decide_eq_true (List.infix_refl stderr.data)
    · rw [if_neg hgen]
      refine ⟨_, rfl, ?_⟩
      unfold jsIncludes
      apply decide_eq_true
      rw [String.data_append]
      exact (List.suffix_append _ stderr.data).isInfix
  · intro hc
    unfold classifyClose
    rw [if_neg (by simpa using hc)]

/-- Witness for C5's amended theorem at concrete invocations of each
branch. -/
theorem classifyClose_amended_witness :
    ((1 : Int) ≠ 0 ∧ claimAppStderr "make sure it is running" = true ∧
      classifyClose 1 "" "make sure it is running"
        = .fail (.appUnreachable appUnreachableMessage)) ∧
    (claimAppStderr "You are not signed in" = false ∧
      claimAuthStderr "You are not signed in" = true ∧
      classifyClose 1 "" "You are not signed in" = .fail (.authRequired signInMessage)) ∧
    (claimAppStderr "boom" = false ∧ claimAuthStderr "boom" = false ∧
      ∃ m, classifyClose 1 "" "boom" = .fail (.commandFailed m) ∧
        jsIncludes m "boom" = true) ∧
    ((0 : Int) = 0 ∧
      classifyClose 0 " ok " "boom"
        = .ok (jsTrim " ok ")
            (("boom" : String) ≠ "" ∧ ¬ jsIncludes "boom" "warning" = true ∧
              jsTrim "boom" ≠ "")) :=
  ⟨⟨by decide, by decide,
      (classifyClose_amended 1 "" "make sure it is running").1 (by decide) (by decide)⟩,
    ⟨by decide, by decide,
      (classifyClose_amended 1 "" "You are not signed in").2.1 (by decide) (by decide)
        (by decide)⟩,
    ⟨by decide, by decide,
      (classifyClose_amended 1 "" "boom").2.2.1 (by decide) (by decide) (by decide)⟩,
    ⟨rfl, (classifyClose_amended 0 " ok " "boom").2.2.2 rfl⟩⟩

/-! The session-caching invoker with the auth retry,
`src/unnamed/part_000`. -/

/-- The `cachedSessionToken` value: environment-variable name plus token
value. -/
structure SessionToken where
  name : String
  value : String
deriving DecidableEq

/-- One subprocess invocation as the trace model sees it: the session
`getSessionToken` would resolve afresh if its cache slot is empty (absent
when resolution fails), and the child's exit data. -/
structure Invocation where
  fresh : Option SessionToken
  exitCode : Int
  stdout : String
  stderr : String
deriving DecidableEq

/-- Result of a settled `runOp` promise. -/
inductive RunOutcome where
  | ok (stdout : String)
  | err (message : String)
deriving DecidableEq

/-- `runOp` of `src/unnamed/part_000` over an invocation trace.  `sess`
is the `cachedSessionToken` slot on entry; each spawn consumes the head
invocation.  `getSessionToken` returns the cached token if present, else
the invocation's fresh resolution (which it caches).  On a non-zero exit
whose stderr matches the auth substrings while `retryWithAuth` holds,
the slot is cleared and the command re-run once with `retryWithAuth`
false; a failing re-run is surfaced as the single sign-in error.
Returns the outcome, the final slot, and the number of spawns. -/
def runOp (retryWithAuth : Bool) (sess : Option SessionToken) :
    List Invocation → RunOutcome × Option SessionToken × Nat
  | [] => (.err "spawn failure", sess, 0)
  | inv :: rest =>
    let sessUsed : Option SessionToken :=
      match sess with
      | some tok => some tok
      | none => inv.fresh
    if inv.exitCode ≠ 0 then
      if authStderrRetry inv.stderr = true ∧ retryWithAuth = true then
        match runOp false none rest with
        | (.ok out, sess2, n) => (.ok out, sess2, n + 1)
        | (.err _, sess2, n) => (.err signInMessage, sess2, n + 1)
      else if inv.stderr ≠ "" ∧ ¬ jsIncludes inv.stderr "warning" = true then
        (.err inv.stderr, sessUsed, 1)
      else
        (.err ("Command failed with exit code " ++ toString inv.exitCode ++ ". "
          ++ inv.stderr), sessUsed, 1)
    else
      (.ok (jsTrim inv.stdout), sessUsed, 1)

/-- C4.  A first AUTH_REQUIRED failure clears the cached session slot and
re-invokes exactly once with a freshly resolved session; the result never
depends on anything beyond that single retry (no further retries), and a
second AUTH_REQUIRED failure surfaces the single sign-in error. -/
theorem runOp_auth_retry_once (sess : Option SessionToken) (inv0 inv1 : Invocation)
    (rest rest2 : List Invocation)
    (h0 : inv0.exitCode ≠ 0) (ha0 : authStderrRetry inv0.stderr = true) :
    (runOp true sess (inv0 :: inv1 :: rest)).2.2 = 2 ∧
    (runOp true sess (inv0 :: inv1 :: rest)).2.1 = inv1.fresh ∧
    runOp true sess (inv0 :: inv1 :: rest) = runOp true sess (inv0 :: inv1 :: rest2) ∧
    (inv1.exitCode ≠ 0 → authStderrRetry inv1.stderr = true →
      (runOp true sess (inv0 :: inv1 :: rest)).1 = .err signInMessage) := by
  have hretry : ∀ (l : List Invocation),
      runOp false none (inv1 :: l)
      = (match runOp false none (inv1 :: l) with
          | x => x) := fun _ => rfl
  have hstep : ∀ (l : List Invocation),
      runOp true sess (inv0 :: inv1 :: l)
      = (match runOp false none (inv1 :: l) with
          | (.ok out, sess2, n) => (.ok out, sess2, n + 1)
          | (.err _, sess2, n) => (.err signInMessage, sess2, n + 1)) := by
    intro l
    show (if inv0.exitCode ≠ 0 then _ else _) = _
    rw [if_pos h0, if_pos ⟨ha0, rfl⟩]
  have hinner : ∀ (l : List Invocation),
      runOp false none (inv1 :: l)
      = (if inv1.exitCode ≠ 0 then
          (if inv1.stderr ≠ "" ∧ ¬ jsIncludes inv1.stderr "warning" = true then
            (.err inv1.stderr, inv1.fresh, 1)
          else
            (.err ("Command failed with exit code " ++ toString inv1.exitCode ++ ". "
              ++ inv1.stderr), inv1.fresh, 1))
        else (.ok (jsTrim inv1.stdout), inv1.fresh, 1)) := by
    intro l
    show (if inv1.exitCode ≠ 0 then _ else _) = _
    by_cases h1 : inv1.exitCode ≠ 0
    · rw [if_pos h1, if_pos h1,
        if_neg (by rintro ⟨-, hfalse⟩; exact Bool.false_ne_true hfalse)]
    · rw [if_neg h1, if_neg h1]
  refine ⟨?_, ?_, ?_, ?_⟩
  · rw [hstep rest, hinner rest]
    by_cases h1 : inv1.exitCode ≠ 0
    · rw [if_pos h1]
      by_cases hgen : inv1.stderr ≠ "" ∧ ¬ jsIncludes inv1.stderr "warning" = true
      · rw [if_pos hgen]
      · rw [if_neg hgen]
    · rw [if_neg h1]
  · rw [hstep rest, hinner rest]
    by_cases h1 : inv1.exitCode ≠ 0
    · rw [if_pos h1]
      by_cases hgen : inv1.stderr ≠ "" ∧ ¬ jsIncludes inv1.stderr "warning" = true
      · rw [if_pos hgen]
      · rw [if_neg hgen]
    · rw [if_neg h1]
  · rw [hstep rest, hinner rest, hstep rest2, hinner rest2]
  · intro h1 ha1
    rw [hstep rest, hinner rest]
    rw [if_pos h1]
    by_cases hgen : inv1.stderr ≠ "" ∧ ¬ jsIncludes inv1.stderr "warning" = true
    · rw [if_pos hgen]
    · rw [if_neg hgen]

/-- Witness for C4 at a concrete trace with two consecutive auth
failures. -/
theorem runOp_auth_retry_once_witness :
    ((⟨none, 1, "", "oops. You are not signed in."⟩ : Invocation).exitCode ≠ 0 ∧
      authStderrRetry (⟨none, 1, "", "oops. You are not signed in."⟩ : Invocation).stderr
        = true) ∧
    ((runOp true (some ⟨"OP_SESSION_default", "tok"⟩)
        [⟨none, 1, "", "oops. You are not signed in."⟩,
          ⟨some ⟨"OP_SESSION_u1", "tok2"⟩, 1, "", "oops. You are not signed in."⟩]).2.2 = 2 ∧
      (runOp true (some ⟨"OP_SESSION_default", "tok"⟩)
        [⟨none, 1, "", "oops. You are not signed in."⟩,
          ⟨some ⟨"OP_SESSION_u1", "tok2"⟩, 1, "", "oops. You are not signed in."⟩]).2.1
        = some ⟨"OP_SESSION_u1", "tok2"⟩ ∧
      runOp true (some ⟨"OP_SESSION_default", "tok"⟩)
        [⟨none, 1, "", "oops. You are not signed in."⟩,
          ⟨some ⟨"OP_SESSION_u1", "tok2"⟩, 1, "", "oops. You are not signed in."⟩]
        = runOp true (some ⟨"OP_SESSION_default", "tok"⟩)
            ([⟨none, 1, "", "oops. You are not signed in."⟩,
              ⟨some ⟨"OP_SESSION_u1", "tok2"⟩, 1, "", "oops. You are not signed in."⟩] ++
              [⟨none, 0, "never reached", ""⟩]) ∧
      ((⟨some ⟨"OP_SESSION_u1", "tok2"⟩, 1, "", "oops. You are not signed in."⟩ :
            Invocation).exitCode ≠ 0 →
        authStderrRetry "oops. You are not signed in." = true →
        (runOp true (some ⟨"OP_SESSION_default", "tok"⟩)
          [⟨none, 1, "", "oops. You are not signed in."⟩,
            ⟨some ⟨"OP_SESSION_u1", "tok2"⟩, 1, "", "oops. You are not signed in."⟩]).1
          = .err signInMessage)) :=
  ⟨⟨by decide, by decide⟩,
    runOp_auth_retry_once (some ⟨"OP_SESSION_default", "tok"⟩)
      ⟨none, 1, "", "oops. You are not signed in."⟩
      ⟨some ⟨"OP_SESSION_u1", "tok2"⟩, 1, "", "oops. You are not signed in."⟩
      [] [⟨none, 0, "never reached", ""⟩] (by decide) (by decide)⟩

/-! The 30 second invocation timeout (`src/unnamed/part_000` and
`src/unnamed/part_001` both install `setTimeout(() => { child.kill();
reject(...) }, 30000)`). -/

/-- Timed event model of one spawned child: it either emits `close` at
`t` milliseconds, or never closes. -/
inductive SpawnEvent where
  | closesAt (t : Nat) (code : Int) (stdout stderr : String)
  | neverCloses
deriving DecidableEq

/-- The timer delay: 30000 ms. -/
def timeoutMs : Nat := 30000

/-- The timer's rejection message. -/
def timeoutMessage : String := "Command timeout after 30 seconds"

/-- A settled `runOp` promise under the timed model: the first of the
close handler and the 30 s timer settles the promise (a JS promise keeps
its first settlement).  The boolean records whether `child.kill()` fired
while the child was still running. -/
def invokeWithTimeout (e : SpawnEvent) : CloseOutcome × Bool :=
  match e with
  | .closesAt t code out err =>
    if t < timeoutMs then (classifyClose code out err, false)
    else (.fail (.timeout timeoutMessage), true)
  | .neverCloses => (.fail (.timeout timeoutMessage), true)

/-- C9.  A subprocess that has not exited within 30 seconds is killed and
the caller receives the timeout error instead of waiting on the close
event. -/
theorem invokeWithTimeout_kills_after_30s (e : SpawnEvent)
    (h : e = .neverCloses ∨
      ∃ t code out err, e = .closesAt t code out err ∧ timeoutMs ≤ t) :
    invokeWithTimeout e = (.fail (.timeout timeoutMessage), true) := by
  rcases h with rfl | ⟨t, code, out, err, rfl, ht⟩
  · rfl
  · show (if t < timeoutMs then (classifyClose code out err, false)
      else (CloseOutcome.fail (OpFailure.timeout timeoutMessage), true)) = _
    rw [if_neg (Nat.not_lt.mpr ht)]

/-- Witness for C9 at a child that never closes. -/
theorem invokeWithTimeout_kills_after_30s_witness :
    ((SpawnEvent.neverCloses = SpawnEvent.neverCloses ∨
      ∃ t code out err, SpawnEvent.neverCloses = SpawnEvent.closesAt t code out err ∧
        timeoutMs ≤ t)) ∧
    invokeWithTimeout SpawnEvent.neverCloses = (.fail (.timeout timeoutMessage), true) :=
  ⟨Or.inl rfl, invokeWithTimeout_kills_after_30s SpawnEvent.neverCloses (Or.inl rfl)⟩

/-! The create/edit login command builders, `src/unnamed/part_001`
(`createLoginItem`, `editLoginItem`).  Both push, for the title and each
truthy optional field, a part of the form `--flag "value"`; JS truthiness
means an omitted (`undefined`) or empty-string field pushes nothing. -/

/-- JS truthiness of an optional string field. -/
def jsTruthy : Option String → Bool
  | none => false
  | some s => decide (s ≠ "")

/-- A pushed `--flag "value"` part. -/
def quotedFlag (flag v : String) : String :=
  flag ++ " \"" ++ v ++ "\""

/-- The `if (input.x) parts.push(...)` pattern for an optional field. -/
def optFlagPart (flag : String) : Option String → List String
  | none => []
  | some v => if v ≠ "" then [quotedFlag flag v] else []

/-- The optional-flag region shared verbatim by `createLoginItem` and
`editLoginItem`: title, vault, username, password, url, notes, in the
source's push order. -/
def loginFlagParts (title : String) (vaultId username password url notes : Option String) :
    List String :=
  (if title ≠ "" then [quotedFlag "--title" title] else [])
  ++ optFlagPart "--vault" vaultId
  ++ optFlagPart "--username" username
  ++ optFlagPart "--password" password
  ++ optFlagPart "--url" url
  ++ optFlagPart "--notes" notes

/-- `LoginItemInput` from `part_001`. -/
structure LoginItemInput where
  title : String
  vaultId : Option String
  username : Option String
  password : Option String
  url : Option String
  notes : Option String
deriving DecidableEq

/-- `EditLoginItemInput` from `part_001` (`LoginItemInput` plus `id`). -/
structure EditLoginItemInput where
  id : String
  title : String
  vaultId : Option String
  username : Option String
  password : Option String
  url : Option String
  notes : Option String
deriving DecidableEq

/-- The `parts` array of `createLoginItem` right before `join(" ")`. -/
def createLoginParts (input : LoginItemInput) : List String :=
  ["item create \"Login\""]
  ++ loginFlagParts input.title input.vaultId input.username input.password
      input.url input.notes
  ++ ["--format json"]

/-- The `parts` array of `editLoginItem` right before `join(" ")`. -/
def editLoginParts (input : EditLoginItemInput) : List String :=
  ["item edit", input.id]
  ++ loginFlagParts input.title input.vaultId input.username input.password
      input.url input.notes
  ++ ["--format json"]

/-- The command string `createLoginItem` hands to `runOp`. -/
def createLoginCommand (input : LoginItemInput) : String :=
  String.intercalate " " (createLoginParts input)

/-- The command string `editLoginItem` hands to `runOp`. -/
def editLoginCommand (input : EditLoginItemInput) : String :=
  String.intercalate " " (editLoginParts input)

/-- Whether some part of the built command carries the given flag. -/
def hasFlagPart (parts : List String) (flag : String) : Bool :=
  parts.any (fun p => jsStartsWith p (flag ++ " "))

theorem not_prefix_append (n lit rest : List Char)
    (h1 : ¬ n <+: lit) (h2 : ¬ lit <+: n) : ¬ n <+: lit ++ rest := by
  intro h
  rcases List.prefix_or_prefix_of_prefix h (List.prefix_append lit rest) with hh | hh
  · exact h1 hh
  · exact h2 hh

theorem quotedFlag_data (flag v : String) :
    (quotedFlag flag v).data = (flag ++ " \"").data ++ (v.data ++ ("\"" : String).data) := by
  simp [quotedFlag, String.data_append, List.append_assoc]

theorem jsStartsWith_quotedFlag_false (n flag v : String)
    (h1 : ¬ (n ++ " ").data <+: (flag ++ " \"").data)
    (h2 : ¬ (flag ++ " \"").data <+: (n ++ " ").data) :
    jsStartsWith (quotedFlag flag v) (n ++ " ") = false := by
  unfold jsStartsWith
  apply decide_eq_false
  rw [quotedFlag_data]
  exact not_prefix_append _ _ _ h1 h2

theorem mem_optFlagPart {p flag : String} {o : Option String}
    (h : p ∈ optFlagPart flag o) : ∃ v, o = some v ∧ v ≠ "" ∧ p = quotedFlag flag v := by
  match o with
  | none => exact absurd h (List.not_mem_nil p)
  | some v =>
    rw [show optFlagPart flag (some v) = if v ≠ "" then [quotedFlag flag v] else []
      from rfl] at h
    by_cases hv : v ≠ ""
    · rw [if_pos hv] at h
      exact ⟨v, rfl, hv, (List.mem_singleton.mp h)⟩
    · rw [if_neg hv] at h
      exact absurd h (List.not_mem_nil p)

theorem optFlagPart_of_not_truthy {flag : String} {o : Option String}
    (h : ¬ jsTruthy o = true) : optFlagPart flag o = [] := by
  match o with
  | none => rfl
  | some v =>
    rw [show optFlagPart flag (some v) = if v ≠ "" then [quotedFlag flag v] else []
      from rfl]
    rw [if_neg (by simpa [jsTruthy] using h)]

theorem hasFlagPart_false_of_parts {parts : List String} {flag : String}
    (h : ∀ p ∈ parts, jsStartsWith p (flag ++ " ") = false) :
    hasFlagPart parts flag = false := by
  unfold hasFlagPart
  rw [List.any_eq_false]
  intro p hp
  rw [h p hp]
  exact Bool.false_ne_true

theorem mem_loginFlagParts {p : String} {t : String} {o1 o2 o3 o4 o5 : Option String}
    (h : p ∈ loginFlagParts t o1 o2 o3 o4 o5) :
    (t ≠ "" ∧ p = quotedFlag "--title" t) ∨
    (∃ v, o1 = some v ∧ v ≠ "" ∧ p = quotedFlag "--vault" v) ∨
    (∃ v, o2 = some v ∧ v ≠ "" ∧ p = quotedFlag "--username" v) ∨
    (∃ v, o3 = some v ∧ v ≠ "" ∧ p = quotedFlag "--password" v) ∨
    (∃ v, o4 = some v ∧ v ≠ "" ∧ p = quotedFlag "--url" v) ∨
    (∃ v, o5 = some v ∧ v ≠ "" ∧ p = quotedFlag "--notes" v) := by
  unfold loginFlagParts at h
  simp only [List.mem_append] at h
  rcases h with ((((ht | h1) | h2) | h3) | h4) | h5
  · left
    by_cases hne : t ≠ ""
    · rw [if_pos hne] at ht
      exact ⟨hne, List.mem_singleton.mp ht⟩
    · rw [if_neg hne] at ht
      exact absurd ht (List.not_mem_nil p)
  · exact Or.inr (Or.inl (mem_optFlagPart h1))
  · exact Or.inr (Or.inr (Or.inl (mem_optFlagPart h2)))
  · exact Or.inr (Or.inr (Or.inr (Or.inl (mem_optFlagPart h3))))
  · exact Or.inr (Or.inr (Or.inr (Or.inr (Or.inl (mem_optFlagPart h4)))))
  · exact Or.inr (Or.inr (Or.inr (Or.inr (Or.inr (mem_optFlagPart h5)))))

theorem truthy_of_some {o : Option String} {v : String} (ho : o = some v) (hv : v ≠ "") :
    jsTruthy o = true := by
  rw [ho]
  simpa [jsTruthy] using hv

theorem quotedFlag_self_ne (f v : String) (hv : v ≠ "") :
    quotedFlag f "" ≠ quotedFlag f v := by
  intro h
  have hd := congrArg String.data h
  rw [quotedFlag_data, quotedFlag_data] at hd
  have h1 := List.append_cancel_left hd
  have h2 := List.append_cancel_right h1
  exact hv (String.ext h2.symm)

theorem quotedFlag_cross_ne (f g v : String)
    (h1 : ¬ (f ++ " \"").data <+: (g ++ " \"").data)
    (h2 : ¬ (g ++ " \"").data <+: (f ++ " \"").data) :
    quotedFlag f "" ≠ quotedFlag g v := by
  intro h
  have hd := congrArg String.data h
  rw [quotedFlag_data, quotedFlag_data] at hd
  have hf : (f ++ " \"").data <+: (g ++ " \"").data ++ (v.data ++ ("\"" : String).data) := by
    rw [← hd]
    exact List.prefix_append _ _
  rcases List.prefix_or_prefix_of_prefix hf (List.prefix_append _ _) with hh | hh
  · exact h1 hh
  · exact h2 hh

theorem loginFlagParts_startsWith_false (n t : String) (o1 o2 o3 o4 o5 : Option String)
    (hT : ∀ v, t = v → v ≠ "" → jsStartsWith (quotedFlag "--title" v) (n ++ " ") = false)
    (hV : ∀ v, o1 = some v → v ≠ "" → jsStartsWith (quotedFlag "--vault" v) (n ++ " ") = false)
    (hU : ∀ v, o2 = some v → v ≠ "" → jsStartsWith (quotedFlag "--username" v) (n ++ " ") = false)
    (hP : ∀ v, o3 = some v → v ≠ "" → jsStartsWith (quotedFlag "--password" v) (n ++ " ") = false)
    (hR : ∀ v, o4 = some v → v ≠ "" → jsStartsWith (quotedFlag "--url" v) (n ++ " ") = false)
    (hN : ∀ v, o5 = some v → v ≠ "" → jsStartsWith (quotedFlag "--notes" v) (n ++ " ") = false) :
    ∀ p ∈ loginFlagParts t o1 o2 o3 o4 o5, jsStartsWith p (n ++ " ") = false := by
  intro p hp
  rcases mem_loginFlagParts hp with ⟨hne, rfl⟩ | ⟨v, ho, hv, rfl⟩ | ⟨v, ho, hv, rfl⟩ |
    ⟨v, ho, hv, rfl⟩ | ⟨v, ho, hv, rfl⟩ | ⟨v, ho, hv, rfl⟩
  · exact hT t rfl hne
  · exact hV v ho hv
  · exact hU v ho hv
  · exact hP v ho hv
  · exact hR v ho hv
  · exact hN v ho hv

theorem hasFlagPart_create_false (input : LoginItemInput) (n : String)
    (hhead : jsStartsWith "item create \"Login\"" (n ++ " ") = false)
    (hfmt : jsStartsWith "--format json" (n ++ " ") = false)
    (hregion : ∀ p ∈ loginFlagParts input.title input.vaultId input.username input.password
        input.url input.notes, jsStartsWith p (n ++ " ") = false) :
    hasFlagPart (createLoginParts input) n = false := by
  apply hasFlagPart_false_of_parts
  intro p hp
  unfold createLoginParts at hp
  simp only [List.mem_append, List.mem_singleton] at hp
  rcases hp with (rfl | hp) | rfl
  · exact hhead
  · exact hregion p hp
  · exact hfmt

theorem hasFlagPart_edit_false (einput : EditLoginItemInput) (n : String)
    (hfmt : jsStartsWith "--format json" (n ++ " ") = false)
    (hregion : ∀ p ∈ loginFlagParts einput.title einput.vaultId einput.username einput.password
        einput.url einput.notes, jsStartsWith p (n ++ " ") = false) :
    hasFlagPart ((editLoginParts einput).drop 2) n = false := by
  apply hasFlagPart_false_of_parts
  intro p hp
  have hdrop : (editLoginParts einput).drop 2
      = loginFlagParts einput.title einput.vaultId einput.username einput.password
          einput.url einput.notes ++ ["--format json"] := rfl
  rw [hdrop] at hp
  rcases List.mem_append.mp hp with hp | hp
  · exact hregion p hp
  · rw [List.mem_singleton.mp hp]
    exact hfmt

theorem quotedFlag_empty_not_mem_region (f t : String) (o1 o2 o3 o4 o5 : Option String)
    (hT : ∀ v : String, v ≠ "" → quotedFlag f "" ≠ quotedFlag "--title" v)
    (hV : ∀ v : String, v ≠ "" → quotedFlag f "" ≠ quotedFlag "--vault" v)
    (hU : ∀ v : String, v ≠ "" → quotedFlag f "" ≠ quotedFlag "--username" v)
    (hP : ∀ v : String, v ≠ "" → quotedFlag f "" ≠ quotedFlag "--password" v)
    (hR : ∀ v : String, v ≠ "" → quotedFlag f "" ≠ quotedFlag "--url" v)
    (hN : ∀ v : String, v ≠ "" → quotedFlag f "" ≠ quotedFlag "--notes" v) :
    quotedFlag f "" ∉ loginFlagParts t o1 o2 o3 o4 o5 := by
  intro h
  rcases mem_loginFlagParts h with ⟨hne, heq⟩ | ⟨v, _, hv, heq⟩ | ⟨v, _, hv, heq⟩ |
    ⟨v, _, hv, heq⟩ | ⟨v, _, hv, heq⟩ | ⟨v, _, hv, heq⟩
  · exact hT t hne heq
  · exact hV v hv heq
  · exact hU v hv heq
  · exact hP v hv heq
  · exact hR v hv heq
  · exact hN v hv heq

theorem quotedFlag_empty_not_mem_create (input : LoginItemInput) (f : String)
    (h1 : quotedFlag f "" ≠ "item create \"Login\"")
    (h2 : quotedFlag f "" ≠ "--format json")
    (hregion : quotedFlag f "" ∉ loginFlagParts input.title input.vaultId input.username
        input.password input.url input.notes) :
    quotedFlag f "" ∉ createLoginParts input := by
  intro h
  unfold createLoginParts at h
  simp only [List.mem_append, List.mem_singleton] at h
  rcases h with (h | h) | h
  · exact h1 h
  · exact hregion h
  · exact h2 h

theorem quotedFlag_empty_not_mem_edit (einput : EditLoginItemInput) (f : String)
    (h2 : quotedFlag f "" ≠ "--format json")
    (hregion : quotedFlag f "" ∉ loginFlagParts einput.title einput.vaultId einput.username
        einput.password einput.url einput.notes) :
    quotedFlag f "" ∉ (editLoginParts einput).drop 2 := by
  intro h
  have hdrop : (editLoginParts einput).drop 2
      = loginFlagParts einput.title einput.vaultId einput.username einput.password
          einput.url einput.notes ++ ["--format json"] := rfl
  rw [hdrop] at h
  rcases List.mem_append.mp h with h | h
  · exact hregion h
  · exact h2 (List.mem_singleton.mp h)

/-- C7.  In the create-login and edit-login builders, an optional field
(vault, username, password, url, notes) that is omitted (`undefined`) or
empty contributes no `--flag "value"` part to the built command (for the
edit builder, the two leading positional tokens `item edit <id>` are
skipped by the flag predicate), and the builders never emit a part
carrying an empty-string value for any of those flags. -/
theorem login_builders_omit_empty_fields (input : LoginItemInput)
    (einput : EditLoginItemInput) :
    (¬ jsTruthy input.vaultId = true → hasFlagPart (createLoginParts input) "--vault" = false) ∧
    (¬ jsTruthy input.username = true →
      hasFlagPart (createLoginParts input) "--username" = false) ∧
    (¬ jsTruthy input.password = true →
      hasFlagPart (createLoginParts input) "--password" = false) ∧
    (¬ jsTruthy input.url = true → hasFlagPart (createLoginParts input) "--url" = false) ∧
    (¬ jsTruthy input.notes = true → hasFlagPart (createLoginParts input) "--notes" = false) ∧
    (¬ jsTruthy einput.vaultId = true →
      hasFlagPart ((editLoginParts einput).drop 2) "--vault" = false) ∧
    (¬ jsTruthy einput.username = true →
      hasFlagPart ((editLoginParts einput).drop 2) "--username" = false) ∧
    (¬ jsTruthy einput.password = true →
      hasFlagPart ((editLoginParts einput).drop 2) "--password" = false) ∧
    (¬ jsTruthy einput.url = true →
      hasFlagPart ((editLoginParts einput).drop 2) "--url" = false) ∧
    (¬ jsTruthy einput.notes = true →
      hasFlagPart ((editLoginParts einput).drop 2) "--notes" = false) ∧
    (∀ f ∈ (["--vault", "--username", "--password", "--url", "--notes"] : List String),
      quotedFlag f "" ∉ createLoginParts input ∧
      quotedFlag f "" ∉ (editLoginParts einput).drop 2) := by
  refine ⟨?_, ?_, ?_, ?_, ?_, ?_, ?_, ?_, ?_, ?_, ?_⟩
  · intro hU
    apply hasFlagPart_create_false _ _ (by decide) (by decide)
    refine loginFlagParts_startsWith_false _ _ _ _ _ _ _ ?_ ?_ ?_ ?_ ?_ ?_ <;>
      (intro v ho hv
       first
        | exact absurd (truthy_of_some ho hv) hU
        | exact jsStartsWith_quotedFlag_false _ _ _ (by decide) (by decide))
  · intro hU
    apply hasFlagPart_create_false _ _ (by decide) (by decide)
    refine loginFlagParts_startsWith_false _ _ _ _ _ _ _ ?_ ?_ ?_ ?_ ?_ ?_ <;>
      (intro v ho hv
       first
        | exact absurd (truthy_of_some ho hv) hU
        | exact jsStartsWith_quotedFlag_false _ _ _ (by decide) (by decide))
  · intro hU
    apply hasFlagPart_create_false _ _ (by decide) (by decide)
    refine loginFlagParts_startsWith_false _ _ _ _ _ _ _ ?_ ?_ ?_ ?_ ?_ ?_ <;>
      (intro v ho hv
       first
        | exact absurd (truthy_of_some ho hv) hU
        | exact jsStartsWith_quotedFlag_false _ _ _ (by decide) (by decide))
  · intro hU
    apply hasFlagPart_create_false _ _ (by decide) (by decide)
    refine loginFlagParts_startsWith_false _ _ _ _ _ _ _ ?_ ?_ ?_ ?_ ?_ ?_ <;>
      (intro v ho hv
       first
        | exact absurd (truthy_of_some ho hv) hU
        | exact jsStartsWith_quotedFlag_false _ _ _ (by decide) (by decide))
  · intro hU
    apply hasFlagPart_create_false _ _ (by decide) (by decide)
    refine loginFlagParts_startsWith_false _ _ _ _ _ _ _ ?_ ?_ ?_ ?_ ?_ ?_ <;>
      (intro v ho hv
       first
        | exact absurd (truthy_of_some ho hv) hU
        | exact jsStartsWith_quotedFlag_false _ _ _ (by decide) (by decide))
  · intro hU
    apply hasFlagPart_edit_false _ _ (by decide)
    refine loginFlagParts_startsWith_false _ _ _ _ _ _ _ ?_ ?_ ?_ ?_ ?_ ?_ <;>
      (intro v ho hv
       first
        | exact absurd (truthy_of_some ho hv) hU
        | exact jsStartsWith_quotedFlag_false _ _ _ (by decide) (by decide))
  · intro hU
    apply hasFlagPart_edit_false _ _ (by decide)
    refine loginFlagParts_startsWith_false _ _ _ _ _ _ _ ?_ ?_ ?_ ?_ ?_ ?_ <;>
      (intro v ho hv
       first
        | exact absurd (truthy_of_some ho hv) hU
        | exact jsStartsWith_quotedFlag_false _ _ _ (by decide) (by decide))
  · intro hU
    apply hasFlagPart_edit_false _ _ (by decide)
    refine loginFlagParts_startsWith_false _ _ _ _ _ _ _ ?_ ?_ ?_ ?_ ?_ ?_ <;>
      (intro v ho hv
       first
        | exact absurd (truthy_of_some ho hv) hU
        | exact jsStartsWith_quotedFlag_false _ _ _ (by decide) (by decide))
  · intro hU
    apply hasFlagPart_edit_false _ _ (by decide)
    refine loginFlagParts_startsWith_false _ _ _ _ _ _ _ ?_ ?_ ?_ ?_ ?_ ?_ <;>
      (intro v ho hv
       first
        | exact absurd (truthy_of_some ho hv) hU
        | exact jsStartsWith_quotedFlag_false _ _ _ (by decide) (by decide))
  · intro hU
    apply hasFlagPart_edit_false _ _ (by decide)
    refine loginFlagParts_startsWith_false _ _ _ _ _ _ _ ?_ ?_ ?_ ?_ ?_ ?_ <;>
      (intro v ho hv
       first
        | exact absurd (truthy_of_some ho hv) hU
        | exact jsStartsWith_quotedFlag_false _ _ _ (by decide) (by decide))
  · intro f hf
    fin_cases hf <;>
      refine ⟨quotedFlag_empty_not_mem_create _ _ (by decide) (by decide)
          (quotedFlag_empty_not_mem_region _ _ _ _ _ _ _ ?_ ?_ ?_ ?_ ?_ ?_),
        quotedFlag_empty_not_mem_edit _ _ (by decide)
          (quotedFlag_empty_not_mem_region _ _ _ _ _ _ _ ?_ ?_ ?_ ?_ ?_ ?_)⟩ <;>
      (intro v hv
       first
        | exact quotedFlag_self_ne _ v hv
        | exact quotedFlag_cross_ne _ _ v (by decide) (by decide))

/-- Sample create-login input with all optional fields omitted. -/
def sampleCreateInput : LoginItemInput :=
  ⟨"Site A", none, none, none, none, none⟩

/-- Sample edit-login input with an empty-string vault and truthy
notes. -/
def sampleEditInput : EditLoginItemInput :=
  ⟨"abc123", "", some "", none, none, none, some "note text"⟩

/-- Witness for C7 at the sample inputs. -/
theorem login_builders_omit_empty_fields_witness :
    (¬ jsTruthy sampleCreateInput.username = true ∧
      hasFlagPart (createLoginParts sampleCreateInput) "--username" = false) ∧
    (¬ jsTruthy sampleEditInput.vaultId = true ∧
      hasFlagPart ((editLoginParts sampleEditInput).drop 2) "--vault" = false) ∧
    (("--password" : String) ∈
        (["--vault", "--username", "--password", "--url", "--notes"] : List String) ∧
      quotedFlag "--password" "" ∉ createLoginParts sampleCreateInput ∧
      quotedFlag "--password" "" ∉ (editLoginParts sampleEditInput).drop 2) :=
  ⟨⟨by decide,
      (login_builders_omit_empty_fields sampleCreateInput sampleEditInput).2.1 (by decide)⟩,
    ⟨by decide,
      (login_builders_omit_empty_fields sampleCreateInput
        sampleEditInput).2.2.2.2.2.1 (by decide)⟩,
    ⟨by decide,
      ((login_builders_omit_empty_fields sampleCreateInput
        sampleEditInput).2.2.2.2.2.2.2.2.2.2 "--password" (by decide)).1,
      ((login_builders_omit_empty_fields sampleCreateInput
        sampleEditInput).2.2.2.2.2.2.2.2.2.2 "--password" (by decide)).2⟩⟩

/-! Password generation: the `generatePassword` builder of
`src/lib/op-cli.ts` and the `GeneratePassword` form of
`src/commands/generate-password.tsx` (its `handleGenerate` handler and
the length field's `onChange`). -/

/-- `PasswordGeneratorOptions` from `types.ts`. -/
structure PasswordGeneratorOptions where
  length : Nat
  uppercase : Bool
  lowercase : Bool
  numbers : Bool
  symbols : Bool
  excludeAmbiguous : Bool
deriving DecidableEq

/-- The command string `generatePassword` (op-cli.ts) hands to
`executeOPCommand`: `generate password` plus `--length` when truthy and
one suppression flag per disabled class, `--exclude-symbols` for the
ambiguous toggle. -/
def generatePasswordCommand (o : PasswordGeneratorOptions) : String :=
  let flags :=
    (if o.length ≠ 0 then ["--length " ++ toString o.length] else [])
    ++ (if !o.uppercase then ["--no-uppercase"] else [])
    ++ (if !o.lowercase then ["--no-lowercase"] else [])
    ++ (if !o.numbers then ["--no-digits"] else [])
    ++ (if !o.symbols then ["--no-symbols"] else [])
    ++ (if o.excludeAmbiguous then ["--exclude-symbols"] else [])
  "generate password " ++ String.intercalate " " flags

/-- The digit run consumed by `parseInt(s, 10)` after sign handling:
absent when no leading digit. -/
def digitsOf (l : List Char) : Option Nat :=
  let ds := l.takeWhile Char.isDigit
  if ds = [] then none
  else some (ds.foldl (fun n c => 10 * n + (c.toNat - ('0' : Char).toNat)) 0)

/-- Model of JS `parseInt(s, 10)`: skip leading whitespace, optional
sign, then leading decimal digits; `NaN` becomes `none`. -/
def parseIntJS (s : String) : Option Int :=
  match s.data.dropWhile Char.isWhitespace with
  | '-' :: rest => (digitsOf rest).map (fun n => -(n : Int))
  | '+' :: rest => (digitsOf rest).map (fun n => (n : Int))
  | l => (digitsOf l).map (fun n => (n : Int))

/-- The length field's `onChange` handler in `GeneratePassword`: the
state is updated only when the parsed value lies in [8,128]; anything
else (including 7 or 129) is silently ignored. -/
def lengthOnChange (current : Nat) (value : String) : Nat :=
  match parseIntJS value with
  | none => current
  | some n => if 8 ≤ n ∧ n ≤ 128 then n.toNat else current

/-- What `handleGenerate` produces. -/
inductive GenOutcome where
  | errorToast (message : String)
  | generated (command : String)
deriving DecidableEq

/-- The `GeneratePassword` form state (defaults: length 20, all classes
on, ambiguous exclusion off). -/
structure GenFormState where
  length : Nat
  uppercase : Bool
  lowercase : Bool
  numbers : Bool
  symbols : Bool
  excludeAmbiguous : Bool
deriving DecidableEq

/-- `handleGenerate` from `generate-password.tsx`: probe the CLI
(`op --version`), probe the session (`op whoami`), reject when all four
character classes are off, else invoke the generation builder.  The
second component lists the external-tool invocations performed, in
order. -/
def handleGenerate (st : GenFormState) (installed signedIn : Bool) :
    GenOutcome × List String :=
  if !installed then
    (.errorToast "1Password CLI is not installed", ["op --version"])
  else if !signedIn then
    (.errorToast "Please sign in to 1Password CLI", ["op --version", "op whoami"])
  else if !st.uppercase && !st.lowercase && !st.numbers && !st.symbols then
    (.errorToast "Please select at least one character set", ["op --version", "op whoami"])
  else
    (.generated (generatePasswordCommand
        ⟨st.length, st.uppercase, st.lowercase, st.numbers, st.symbols,
          st.excludeAmbiguous⟩),
      ["op --version", "op whoami",
        "op " ++ generatePasswordCommand
          ⟨st.length, st.uppercase, st.lowercase, st.numbers, st.symbols,
            st.excludeAmbiguous⟩])

/-- C6 (counterexample).  Entering 7 or 129 in the length field produces
no configuration error at all: the handler ignores the input, the state
keeps its previous value (20), and a subsequent generate proceeds
normally.  And the all-classes-disabled configuration error is raised
only after the two probe invocations of the external tool (`op
--version`, `op whoami`), not before any invocation. -/
theorem generate_password_claim_counterexample :
    lengthOnChange 20 "7" = 20 ∧
    lengthOnChange 20 "129" = 20 ∧
    (handleGenerate ⟨20, true, true, true, true, false⟩ true true).1
      = .generated "generate password --length 20" ∧
    (handleGenerate ⟨20, false, false, false, false, false⟩ true true).1
      = .errorToast "Please select at least one character set" ∧
    (handleGenerate ⟨20, false, false, false, false, false⟩ true true).2
      = ["op --version", "op whoami"] := by
  refine ⟨by decide, by decide, by decide, by decide, by decide⟩

/-- C6 (amended).  An out-of-range length entered in the form is ignored
by the input handler, so the length state (initially 20) always stays in
[8,128] and no invocation with an out-of-range length is ever built; all
four character classes disabled produces the configuration error before
the generation invocation (though after the two probe invocations); and
a valid configuration — length 20 with only digits enabled — builds the
generation command with exactly the suppression flags --no-uppercase
--no-lowercase --no-symbols and no error. -/
theorem generate_password_validation (cur : Nat) (value : String) (st : GenFormState)
    (hcur : 8 ≤ cur ∧ cur ≤ 128) :
    (8 ≤ lengthOnChange cur value ∧ lengthOnChange cur value ≤ 128) ∧
    (st.uppercase = false → st.lowercase = false → st.numbers = false → st.symbols = false →
      (handleGenerate st true true).1 = .errorToast "Please select at least one character set" ∧
      (handleGenerate st true true).2 = ["op --version", "op whoami"]) ∧
    (handleGenerate ⟨20, false, false, true, false, false⟩ true true).1
      = .generated "generate password --length 20 --no-uppercase --no-lowercase --no-symbols" := by
  refine ⟨?_, ?_, by decide⟩
  · unfold lengthOnChange
    split
    · exact hcur
    · split
      · rename_i n hin
        omega
      · exact hcur
  · intro h1 h2 h3 h4
    unfold handleGenerate
    rw [h1, h2, h3, h4]
    exact ⟨rfl, rfl⟩

/-- Witness for C6's amended theorem at length input "7" and the
all-disabled toggle state. -/
theorem generate_password_validation_witness :
    (8 ≤ 20 ∧ 20 ≤ 128) ∧
    ((8 ≤ lengthOnChange 20 "7" ∧ lengthOnChange 20 "7" ≤ 128) ∧
      ((⟨20, false, false, false, false, false⟩ : GenFormState).uppercase = false →
        (⟨20, false, false, false, false, false⟩ : GenFormState).lowercase = false →
        (⟨20, false, false, false, false, false⟩ : GenFormState).numbers = false →
        (⟨20, false, false, false, false, false⟩ : GenFormState).symbols = false →
        (handleGenerate ⟨20, false, false, false, false, false⟩ true true).1
          = .errorToast "Please select at least one character set" ∧
        (handleGenerate ⟨20, false, false, false, false, false⟩ true true).2
          = ["op --version", "op whoami"]) ∧
      (handleGenerate ⟨20, false, false, true, false, false⟩ true true).1
        = .generated
            "generate password --length 20 --no-uppercase --no-lowercase --no-symbols") :=
  ⟨by decide,
    generate_password_validation 20 "7" ⟨20, false, false, false, false, false⟩ (by decide)⟩

end OnePass
